import Mathlib

/-!
Shallow embedding of the Bella interpreter.

The repository holds two variants of the interpreter:
  * `src/unnamed/part_000` — the full variant, with `While`, `FunctionStatement`,
    `ArrayLiteral`, `Subscript` and a global `memory` map.  Embedded in
    namespace `Bella`.
  * `src/bella.ts` (second copy, lines 158-359) — a reduced variant whose
    `Identifier.interpret` contains a `console.log(typeof value)` call.
    Its `Identifier.interpret` is embedded in namespace `BellaTs`.

Modelling conventions:
  * JS `number` (IEEE-754 double) is modelled by `JsNumber`, an exact
    fraction type (numerator/positive denominator) with executable
    arithmetic.  Every double constant appearing in the source (numerals,
    `Math.PI`, `Math.LN10`) is a rational and is represented exactly as
    written in the source text.  IEEE rounding, `NaN` and the infinities
    are not modelled (they are floating point and outside the shallow
    embedding); no settled claim depends on them.
  * JS `Map<string, Value>` is modelled as an association list updated in
    place (`Map.set` overwrites an existing key, keeping insertion order,
    else appends).
  * A thrown `Error` is modelled as an `Except`-style error result; the
    error kinds name the distinct `throw new Error(...)` sites of the source.
  * `console.log` output is modelled as an explicit output list.
-/

namespace Bella

/-- The model of a JS `number`: an exact fraction `n / d` with `d`
positive (every constructor below keeps `d` positive).  Doubles appearing
in the source are finite, hence rationals; exact fraction arithmetic
agrees with IEEE double arithmetic on all values the settled claims
exercise (small integers), and `NaN`/infinities/rounding are outside the
model (see the claim on IEEE arithmetic).  Fractions are not reduced;
numeric equality and order are defined by cross-multiplication. -/
structure JsNumber where
  n : Int
  d : Int
deriving DecidableEq, Repr

instance : OfNat JsNumber m := ⟨⟨m, 1⟩⟩

/-- JS `===` on numbers (numeric equality of exact fractions). -/
def JsNumber.beq (a b : JsNumber) : Bool := a.n * b.d == b.n * a.d

/-- JS `<` on numbers (denominators are positive). -/
def JsNumber.blt (a b : JsNumber) : Bool := a.n * b.d < b.n * a.d

/-- JS `<=` on numbers. -/
def JsNumber.ble (a b : JsNumber) : Bool := a.n * b.d ≤ b.n * a.d

/-- JS `+`. -/
def JsNumber.add (a b : JsNumber) : JsNumber := ⟨a.n * b.d + b.n * a.d, a.d * b.d⟩

/-- JS `-`. -/
def JsNumber.sub (a b : JsNumber) : JsNumber := ⟨a.n * b.d - b.n * a.d, a.d * b.d⟩

/-- JS `*`. -/
def JsNumber.mul (a b : JsNumber) : JsNumber := ⟨a.n * b.n, a.d * b.d⟩

/-- JS unary `-` on a number. -/
def JsNumber.neg (a : JsNumber) : JsNumber := ⟨-a.n, a.d⟩

/-- JS `/`.  Division by zero gives `±Infinity`/`NaN` in JS, which is
outside the exact model; modelled as `0` (no claim depends on it).  The
sign is normalised into the numerator to keep the denominator positive. -/
def JsNumber.div (a b : JsNumber) : JsNumber :=
  if b.n == 0 then ⟨0, 1⟩
  else if b.n < 0 then ⟨-(a.n * b.d), -(a.d * b.n)⟩
  else ⟨a.n * b.d, a.d * b.n⟩

/-- Whether the number is an integer (`Number.isInteger`-style test). -/
def JsNumber.isInt (a : JsNumber) : Bool := a.n % a.d == 0

/-- Truncation toward zero (JS `Math.trunc`), total on the model. -/
def JsNumber.trunc (a : JsNumber) : Int := Int.tdiv a.n a.d

/-- JS `%` on numbers (sign of the dividend):
`a % b = a - b * trunc(a / b)`.  `b = 0` gives `NaN` in JS, outside the
model; modelled as `0` (no claim depends on it). -/
def JsNumber.mod (a b : JsNumber) : JsNumber :=
  if b.n == 0 then ⟨0, 1⟩
  else a.sub (b.mul ⟨(a.div b).trunc, 1⟩)

/-- `a ^ k` for a natural `k`. -/
def JsNumber.powNat (a : JsNumber) (k : Nat) : JsNumber := ⟨a.n ^ k, a.d ^ k⟩

/-- JS `**`.  Integral exponents are exact over the fraction model
(`0 ** negative` gives `Infinity` in JS, here `0` through `div`);
fractional exponents are irrational in general and outside the exact
model, modelled as `0` (no claim depends on them). -/
def JsNumber.pow (a b : JsNumber) : JsNumber :=
  if b.isInt then
    let e := b.trunc
    if 0 ≤ e then a.powNat e.toNat else JsNumber.div ⟨1, 1⟩ (a.powNat (-e).toNat)
  else ⟨0, 1⟩

/-- The native `Math` functions installed by `Program.interpret`
(`src/unnamed/part_000` lines 16-21).  Their numeric results are
transcendental IEEE doubles, outside the rational model; no claim depends on
a native call's numeric result, so `applyNative` below abstracts it. -/
inductive NativeFn where
  | sin | cos | hypot | sqrt | exp

/-- AST expression nodes of `src/unnamed/part_000` (lines 95-231).
`Call`'s callee is an `Identifier`, kept here as its name string. -/
inductive Expression where
  | binaryExp (operator : String) (left right : Expression)
  | unaryExp (operator : String) (operand : Expression)
  | conditionalExpression (test consequent alternate : Expression)
  | call (callee : String) (args : List Expression)
  | arrayLiteral (elements : List Expression)
  | subscript (array : Expression) (sub : Expression)
  | identifier (name : String)
  | numeral (value : JsNumber)
  | bool (value : Bool)

/-- Runtime values of `src/unnamed/part_000` (lines 3-8):
`number | boolean | Value[] | native function | [Identifier[], Expression]`.
The closure form stores the raw constructor arguments of `FunctionStatement`
(the TS `as Identifier` cast is compile-time only, so the stored parameter
list is the raw `Expression[]`).  `undefined` models the JS `undefined` that
out-of-range array indexing produces at runtime (it is not a declared
variant of the TS `Value` type, but it flows out of `Subscript.interpret`). -/
inductive Value where
  | num (q : JsNumber)
  | bool (b : Bool)
  | arr (elements : List Value)
  | native (f : NativeFn)
  | closure (params : List Expression) (body : Expression)
  | undefined

/-- The distinct `throw new Error(...)` sites of `src/unnamed/part_000`. -/
inductive Err where
  | alreadyDeclared (name : String)      -- "Variable already declared: ..."
  | unknownVariable (name : String)      -- "Unknown variable: ..."
  | mustBeNumber                         -- "Must be a number to use arithmetic operations"
  | unknownOperator (op : String)        -- "Unknown operator: ..."
  | notAFunction (name : String)         -- "Value is not a function: ..."
  | subscriptNotArray                    -- "Subscripted item must be an array"
  | subscriptNotNumber                   -- "Subscript value must be a number"
  | variableNotANumber (name : String)   -- "Variable is not a number: ..."

/-- `Map<string, Value>` as an association list in insertion order. -/
def Mem := List (String × Value)

/-- `memory.has(name)`. -/
def Mem.mhas (m : Mem) (name : String) : Bool :=
  (List.any m (fun p => p.1 == name))

/-- `memory.get(name)` (`none` models JS `undefined`). -/
def Mem.mget : Mem → String → Option Value
  | [], _ => none
  | (k, v) :: rest, name => if k == name then some v else Mem.mget rest name

/-- `memory.set(name, v)`: overwrite in place if present, else append
(JS `Map.set` keeps the original insertion position of an existing key). -/
def Mem.mset : Mem → String → Value → Mem
  | [], name, v => [(name, v)]
  | (k, w) :: rest, name, v =>
    if k == name then (k, v) :: rest else (k, w) :: Mem.mset rest name v

/-- JS truthiness of a runtime value.  `0` is the only falsy number
(`NaN` is not modelled); arrays and functions are truthy; `undefined` is
falsy. -/
def truthy : Value → Bool
  | .num q => !(q.n == 0)
  | .bool b => b
  | .arr _ => true
  | .native _ => true
  | .closure _ _ => true
  | .undefined => false

/-- JS unary `-` applied to a `Value` (`-x` coerces: `-true` is `-1`,
`-false` is `-0`).  Coercion of arrays/functions/undefined yields `NaN`
(modelled as `0`; no claim depends on it). -/
def jsNeg : Value → Value
  | .num q => .num q.neg
  | .bool b => .num (if b then ⟨-1, 1⟩ else ⟨0, 1⟩)
  | _ => .num ⟨0, 1⟩

/-- JS array indexing `arrayValue[subscriptValue]`: an integral index in
`[0, length)` selects the element; any other number (negative, too large,
fractional) yields `undefined`. -/
def jsIndex (elements : List Value) (q : JsNumber) : Value :=
  if q.isInt && decide (0 ≤ q.n) then elements.getD q.trunc.toNat .undefined else .undefined

/-- Application of a native `Math` function.  The source calls
`functionValue(this.args.map(...))`, passing the whole argument array as a
single JS argument, and the `Math` functions coerce it; the numeric result
is a transcendental IEEE double, outside the rational model and unused by
every claim, so it is abstracted to `0`. -/
def applyNative (_f : NativeFn) (_args : List Value) : Value := .num 0

mutual

/-- `Expression.interpret` of `src/unnamed/part_000` (lines 91-231),
dispatching over the expression classes.  The global `memory` is passed
explicitly; expressions of this variant never write it. -/
def Expression.interpret : Expression → Mem → Except Err Value
  | .binaryExp operator l r, m => do
    let left ← l.interpret m
    let right ← r.interpret m
    -- lines 105-106: both operands are checked to be numbers before ANY
    -- operator dispatch, so comparisons and logical operators also require
    -- numbers, and the logical operators act on numbers.
    match left, right with
    | .num a, .num b =>
      match operator with
      | "+" => .ok (.num (a.add b))
      | "-" => .ok (.num (a.sub b))
      | "*" => .ok (.num (a.mul b))
      | "/" => .ok (.num (a.div b))
      | "%" => .ok (.num (a.mod b))
      | "**" => .ok (.num (a.pow b))
      -- first switch falls through to the second switch (lines 123-142)
      | "<" => .ok (.bool (a.blt b))
      | "<=" => .ok (.bool (a.ble b))
      | "==" => .ok (.bool (a.beq b))
      | "!=" => .ok (.bool (!(a.beq b)))
      | ">=" => .ok (.bool (b.ble a))
      | ">" => .ok (.bool (b.blt a))
      | "&&" => .ok (.num (if a.n == 0 then a else b))  -- JS && on numbers
      | "||" => .ok (.num (if a.n == 0 then b else a))  -- JS || on numbers
      | _ => .error (.unknownOperator operator)
    | _, _ => .error .mustBeNumber
  | .unaryExp operator e, m =>
    match operator with
    | "-" => do
      let v ← e.interpret m
      .ok (jsNeg v)
    | "!" => do
      let v ← e.interpret m
      .ok (.bool (!truthy v))
    | _ => .error (.unknownOperator operator)
  | .conditionalExpression test consequent alternate, m =>
    -- lines 166-170: `test.interpret() ? consequent.interpret() : alternate.interpret()`
    match test.interpret m with
    | .error e => .error e
    | .ok t => if truthy t then consequent.interpret m else alternate.interpret m
  | .call callee args, m =>
    -- lines 175-181: the callee is looked up raw from memory (not through
    -- Identifier.interpret); the typeof-function check runs BEFORE the
    -- arguments are evaluated; closures are arrays, not JS functions, so
    -- only a native passes the check.
    match m.mget callee with
    | some (.native f) => do
      let vs ← interpretList args m
      .ok (applyNative f vs)
    | _ => .error (.notAFunction callee)
  | .arrayLiteral elements, m => do
    let vs ← interpretList elements m
    .ok (.arr vs)
  | .subscript array sub, m => do
    let arrayValue ← array.interpret m
    let subscriptValue ← sub.interpret m
    match arrayValue with
    | .arr elements =>
      match subscriptValue with
      | .num q => .ok (jsIndex elements q)
      | _ => .error .subscriptNotNumber
    | _ => .error .subscriptNotArray
  | .identifier name, m =>
    -- lines 208-216: an identifier bound to anything other than a number
    -- (array, boolean, function, closure) throws.
    match m.mget name with
    | none => .error (.unknownVariable name)
    | some (.num q) => .ok (.num q)
    | some _ => .error (.variableNotANumber name)
  | .numeral q, _ => .ok (.num q)
  | .bool b, _ => .ok (.bool b)

/-- Left-to-right evaluation of an expression list (`args.map(...)` /
`elements.map(...)`), stopping at the first thrown error. -/
def interpretList : List Expression → Mem → Except Err (List Value)
  | [], _ => .ok []
  | e :: rest, m => do
    let v ← e.interpret m
    let vs ← interpretList rest m
    .ok (v :: vs)

end

/-- AST statement nodes of `src/unnamed/part_000` (lines 36-89).
A `Block` is its statement list; `whileLoop` embeds the `While` class
(`while` is a Lean keyword).  `functionStatement` keeps the raw
`Expression[]` parameter list, exactly as the constructor stores it. -/
inductive Statement where
  | variableDeclaration (id : String) (initializer : Expression)
  | assignment (target : String) (source : Expression)
  | printStatement (expression : Expression)
  | whileLoop (expression : Expression) (block : List Statement)
  | functionStatement (id : String) (args : List Expression) (expression : Expression)

/-- Interpreter state: the global `memory` map plus the `console.log`
output produced so far (values printed by `PrintStatement`, in order). -/
structure St where
  mem : Mem
  out : List Value

/-- Outcome of running a statement: normal completion, a thrown error
(the global state at the moment of the throw is kept, since the global
`memory` survives a JS throw), or fuel exhaustion (the embedding's bound
on `while` iterations — the source loop itself has no bound). -/
inductive ExecRes where
  | ok (s : St)
  | err (e : Err) (s : St)
  | spin (s : St)

mutual

/-- `Statement.interpret` of `src/unnamed/part_000` (lines 36-89).  The
source statements recurse without bound (a `While` loop can run forever);
the embedding adds a fuel counter, decremented on every recursive call so
the recursion is structural, and reports exhaustion as `.spin`.  Any
terminating source run is reproduced exactly by a large enough fuel. -/
def Statement.interpret : Nat → Statement → St → ExecRes
  | 0, _, s => .spin s
  | fuel + 1, stmt, s =>
    match stmt with
    | .variableDeclaration id initializer =>
      -- lines 42-47: the has-check runs BEFORE the initializer is evaluated
      if s.mem.mhas id then .err (.alreadyDeclared id) s
      else
        match initializer.interpret s.mem with
        | .ok v => .ok { s with mem := s.mem.mset id v }
        | .error e => .err e s
    | .assignment target source =>
      -- lines 52-57: the has-check runs BEFORE the source is evaluated
      if s.mem.mhas target then
        match source.interpret s.mem with
        | .ok v => .ok { s with mem := s.mem.mset target v }
        | .error e => .err e s
      else .err (.unknownVariable target) s
    | .printStatement expression =>
      match expression.interpret s.mem with
      | .ok v => .ok { s with out := s.out ++ [v] }
      | .error e => .err e s
    | .whileLoop expression block =>
      -- lines 69-73: `while (this.expression.interpret()) { ... }` — the
      -- condition value is used for JS truthiness, with NO Boolean check
      match expression.interpret s.mem with
      | .error e => .err e s
      | .ok v =>
        if truthy v then
          match Block.interpret fuel block s with
          | .ok s' => Statement.interpret fuel (.whileLoop expression block) s'
          | r => r
        else .ok s
    | .functionStatement id args expression =>
      -- lines 83-88: no redeclaration check; stores the [params, body] pair
      .ok { s with mem := s.mem.mset id (.closure args expression) }

/-- `Block.interpret` (lines 27-34): run the statements in order
(fuel-counted like `Statement.interpret`). -/
def Block.interpret : Nat → List Statement → St → ExecRes
  | 0, _, s => .spin s
  | _ + 1, [], s => .ok s
  | fuel + 1, stmt :: rest, s =>
    match Statement.interpret fuel stmt s with
    | .ok s' => Block.interpret fuel rest s'
    | r => r

end

/-- The exact rational value denoted by the decimal rendering of the
double `Math.PI` (`3.141592653589793`). -/
def mathPI : JsNumber := ⟨3141592653589793, 1000000000000000⟩

/-- The exact rational value denoted by the decimal rendering of the
double `Math.LN10` (`2.302585092994046`) — the CONSTANT the source binds
to `ln` (line 22, `memory.set("ln", Math.LN10)`). -/
def mathLN10 : JsNumber := ⟨2302585092994046, 1000000000000000⟩

/-- The built-in bindings installed by `Program.interpret`
(`src/unnamed/part_000` lines 16-22), in insertion order.  `π` is bound to
the number `Math.PI`; `ln` is bound to the NUMBER `Math.LN10`, not to a
function. -/
def builtins : Mem :=
  [("sin", .native .sin), ("cos", .native .cos), ("hypot", .native .hypot),
   ("sqrt", .native .sqrt), ("π", .num mathPI), ("exp", .native .exp),
   ("ln", .num mathLN10)]

/-- `Program.interpret` (lines 12-25): seed the built-ins into the fresh
global memory, then run the body. -/
def Program.interpret (fuel : Nat) (body : List Statement) : ExecRes :=
  Block.interpret fuel body { mem := builtins, out := [] }

end Bella

namespace BellaTs

/-- Runtime values of `src/bella.ts` (line 160):
`number | boolean | ((...args: number[]) => number)`. -/
inductive Value where
  | num (q : Bella.JsNumber)
  | bool (b : Bool)
  | native (f : Bella.NativeFn)

/-- JS `typeof` of a `bella.ts` value (or of `undefined` for a missing
binding), as logged by `Identifier.interpret`. -/
def typeofStr : Option Value → String
  | none => "undefined"
  | some (.num _) => "number"
  | some (.bool _) => "boolean"
  | some (.native _) => "function"

/-- Memory of the `bella.ts` variant. -/
def Mem := List (String × Value)

/-- `memory.get(name)` for the `bella.ts` variant. -/
def Mem.mget : Mem → String → Option Value
  | [], _ => none
  | (k, v) :: rest, name => if k == name then some v else Mem.mget rest name

/-- Errors thrown by `Identifier.interpret` of `src/bella.ts`. -/
inductive Err where
  | unknownVariable (name : String)
  | variableNotANumber (name : String)

/-- `Identifier.interpret` of `src/bella.ts` (lines 317-329).  Returns the
lookup result together with the `console.log` output the call produces:
line 321 logs `typeof value` UNCONDITIONALLY, before any check — an
observable side effect of a pure-expression evaluation. -/
def identifierInterpret (name : String) (memory : Mem) :
    Except Err Value × List String :=
  let value := memory.mget name
  let logged := [typeofStr value]   -- line 321: console.log(typeof value)
  match value with
  | none => (.error (.unknownVariable name), logged)
  | some (.num q) => (.ok (.num q), logged)
  | some _ => (.error (.variableNotANumber name), logged)

/-- The built-ins of the `bella.ts` variant (lines 166-174), identical
bindings to the full variant restricted to its value type. -/
def builtins : Mem :=
  [("sin", .native .sin), ("cos", .native .cos), ("hypot", .native .hypot),
   ("sqrt", .native .sqrt), ("π", .num Bella.mathPI), ("exp", .native .exp),
   ("ln", .num Bella.mathLN10)]

end BellaTs

/-!
Claim theorems.
-/

namespace Bella

/-- Claim C1: the claim states that `&&`/`||` short-circuit — the right
operand of `&&` must not be evaluated when the left is false.  The code
evaluates both operands unconditionally before any operator dispatch:
`false && boom` evaluates (and fails on) the unbound right operand,
`true || boom` likewise, and even with both operands defined,
`false && true` throws the arithmetic type error because the eager
number check rejects boolean operands.  This theorem evaluates the code
at those inputs. -/
theorem logical_operators_evaluate_right_operand_eagerly :
    Expression.interpret (.binaryExp "&&" (.bool false) (.identifier "boom")) [] =
      .error (.unknownVariable "boom") ∧
    Expression.interpret (.binaryExp "||" (.bool true) (.identifier "boom")) [] =
      .error (.unknownVariable "boom") ∧
    Expression.interpret (.binaryExp "&&" (.bool false) (.bool true)) [] =
      .error .mustBeNumber :=
  ⟨rfl, rfl, rfl⟩

/-- Claim C2: `ConditionalExpression(test, consequent, alternate)` first
evaluates `test`; if the test value is truthy the whole expression
evaluates to exactly `consequent`'s evaluation, otherwise to exactly
`alternate`'s evaluation — so the unselected branch (its effects and its
errors) never runs, for every choice of the unselected branch. -/
theorem conditionalExpression_evaluates_exactly_one_branch
    (m : Mem) (test consequent alternate : Expression) (v : Value)
    (h : test.interpret m = .ok v) :
    (truthy v = true →
      Expression.interpret (.conditionalExpression test consequent alternate) m =
        consequent.interpret m) ∧
    (truthy v = false →
      Expression.interpret (.conditionalExpression test consequent alternate) m =
        alternate.interpret m) := by
  constructor <;> intro ht <;> simp [Expression.interpret, h, ht]

/-- Claim C2 witness: with a true test and an alternate that would raise
`UnboundVariableError`, the conditional returns the consequent's value
and no error occurs. -/
theorem conditionalExpression_evaluates_exactly_one_branch_witness :
    Expression.interpret
      (.conditionalExpression (.bool true) (.numeral 1) (.identifier "boom")) [] =
      .ok (.num 1) := by
  have h := (conditionalExpression_evaluates_exactly_one_branch
    [] (.bool true) (.numeral 1) (.identifier "boom") (.bool true) rfl).1 rfl
  rw [h]
  rfl

/-- The body `n * n` of the declared function `square`. -/
def squareBody : Expression := .binaryExp "*" (.identifier "n") (.identifier "n")

/-- The memory after `FunctionStatement` stores `square`: the closure pair
`[params, body]` sits in memory as an array-like value, not a JS function. -/
def squareMem : Mem := builtins.mset "square" (.closure [.identifier "n"] squareBody)

/-- Claim C3: the claim states `square(5)` returns `25` through the
closure form and `square(1, 2)` fails with `ArityMismatchError`.  In the
code, `Call.interpret` invokes only values for which `typeof` is
`"function"`; the stored closure is a two-element array, so EVERY call of
a user-declared function — right arity or wrong — throws
`Value is not a function`, and no arity check exists.  This theorem
evaluates the code at those inputs. -/
theorem user_function_call_raises_value_not_a_function :
    Statement.interpret 1
        (.functionStatement "square" [.identifier "n"] squareBody)
        { mem := builtins, out := [] } =
      .ok { mem := squareMem, out := [] } ∧
    Expression.interpret (.call "square" [.numeral 5]) squareMem =
      .error (.notAFunction "square") ∧
    Expression.interpret (.call "square" [.numeral 1, .numeral 2]) squareMem =
      .error (.notAFunction "square") :=
  ⟨rfl, rfl, rfl⟩

/-- The array literal `[1, 2, 3]`. -/
def arr123 : Expression := .arrayLiteral [.numeral 1, .numeral 2, .numeral 3]

/-- The memory after `a := [1, 2, 3]`. -/
def aMem : Mem := builtins.mset "a" (.arr [.num 1, .num 2, .num 3])

/-- Claim C4: the claim states `a[1]` yields `2`, a non-integral index
raises `TypeError`, and `a[5]` raises `IndexOutOfRangeError`.  In the
code: (1) the declaration `a := [1, 2, 3]` succeeds, but (2) `a[1]`
throws `Variable is not a number`, because `Identifier.interpret` rejects
every non-number binding — so no identifier-bound array can ever be
subscripted; (3) subscripting the array literal directly, the
out-of-range `[1,2,3][5]` yields JS `undefined` with no error; (4) the
non-integral index `[1,2,3][1/2]` also yields `undefined`, not a
`TypeError`; (5) only the not-an-array check of the claim holds.  This
theorem evaluates the code at those inputs. -/
theorem subscript_and_identifier_lookup_deviate :
    Statement.interpret 1 (.variableDeclaration "a" arr123)
        { mem := builtins, out := [] } =
      .ok { mem := aMem, out := [] } ∧
    Expression.interpret (.subscript (.identifier "a") (.numeral 1)) aMem =
      .error (.variableNotANumber "a") ∧
    Expression.interpret (.subscript arr123 (.numeral 5)) [] = .ok .undefined ∧
    Expression.interpret (.subscript arr123 (.numeral ⟨1, 2⟩)) [] = .ok .undefined ∧
    Expression.interpret (.subscript (.numeral 0) (.numeral 0)) [] =
      .error .subscriptNotArray :=
  ⟨rfl, rfl, rfl, rfl, rfl⟩

/-- Claim C5 counterexample: the claim states a non-Boolean loop condition
raises `TypeError`.  The code performs no Boolean check: with the number
`0` as condition the loop completes normally with no error, and with the
number `1` it keeps iterating (truthy), so no `TypeError` is ever raised. -/
theorem while_nonBoolean_condition_raises_no_error :
    Statement.interpret 5 (.whileLoop (.numeral 0) []) { mem := [], out := [] } =
      .ok { mem := [], out := [] } ∧
    Statement.interpret 3 (.whileLoop (.numeral 1) []) { mem := [], out := [] } =
      .spin { mem := [], out := [] } :=
  ⟨rfl, rfl⟩

/-- The scenario program `y := 0; while (y < 10) { y = y + 1 }; print(y)`. -/
def yProgram : List Statement :=
  [.variableDeclaration "y" (.numeral 0),
   .whileLoop (.binaryExp "<" (.identifier "y") (.numeral 10))
     [.assignment "y" (.binaryExp "+" (.identifier "y") (.numeral 1))],
   .printStatement (.identifier "y")]

/-- Claim C5 (amended): `While(cond, body)` evaluates `cond` and tests its
JS truthiness with no Boolean type check; when the condition value is
falsy the loop terminates at once with the state unchanged, when it is
truthy the body runs and the loop repeats on the resulting state; the
scenario `y := 0; while (y < 10) { y = y + 1 }; print(y)` prints `10`. -/
theorem while_truthiness_loop_semantics
    (fuel : Nat) (c : Expression) (b : List Statement) (s s' : St) (v : Value)
    (h : c.interpret s.mem = .ok v) :
    (truthy v = false → Statement.interpret (fuel + 1) (.whileLoop c b) s = .ok s) ∧
    (truthy v = true → Block.interpret fuel b s = .ok s' →
      Statement.interpret (fuel + 1) (.whileLoop c b) s =
        Statement.interpret fuel (.whileLoop c b) s') ∧
    Block.interpret 40 yProgram { mem := [], out := [] } =
      .ok { mem := [("y", .num ⟨10, 1⟩)], out := [.num ⟨10, 1⟩] } := by
  refine ⟨?_, ?_, rfl⟩
  · intro ht; simp [Statement.interpret, h, ht]
  · intro ht hb; simp [Statement.interpret, h, ht, hb]

/-- Claim C5 witness: a loop whose condition is already false terminates
immediately, leaving the state unchanged, its body never run. -/
theorem while_truthiness_loop_semantics_witness :
    Statement.interpret 2
        (.whileLoop (.bool false) [.assignment "q" (.numeral 1)])
        { mem := [], out := [] } =
      .ok { mem := [], out := [] } :=
  (while_truthiness_loop_semantics 1 (.bool false) [.assignment "q" (.numeral 1)]
    { mem := [], out := [] } { mem := [], out := [] } (.bool false) rfl).1 rfl

/-- Claim C7: for every name, state and initializer/source expression:
declaring a name already present in memory fails with the redeclaration
error; assigning a name present nowhere fails with the unbound-variable
error; otherwise the declaration binds the name and the assignment
updates the binding in place (`mset` then `mget` returns the new value). -/
theorem declaration_and_assignment_error_contract
    (fuel : Nat) (name : String) (e : Expression) (s : St) (v : Value) :
    (s.mem.mhas name = true →
      Statement.interpret (fuel + 1) (.variableDeclaration name e) s =
        .err (.alreadyDeclared name) s) ∧
    (s.mem.mhas name = false → e.interpret s.mem = .ok v →
      Statement.interpret (fuel + 1) (.variableDeclaration name e) s =
        .ok { s with mem := s.mem.mset name v }) ∧
    (s.mem.mhas name = false →
      Statement.interpret (fuel + 1) (.assignment name e) s =
        .err (.unknownVariable name) s) ∧
    (s.mem.mhas name = true → e.interpret s.mem = .ok v →
      Statement.interpret (fuel + 1) (.assignment name e) s =
        .ok { s with mem := s.mem.mset name v }) ∧
    (∀ m : Mem, (m.mset name v).mget name = some v) := by
  refine ⟨?_, ?_, ?_, ?_, ?_⟩
  · intro h; simp [Statement.interpret, h]
  · intro h he; simp [Statement.interpret, h, he]
  · intro h; simp [Statement.interpret, h]
  · intro h he; simp [Statement.interpret, h, he]
  · intro m
    induction m with
    | nil => simp [Mem.mset, Mem.mget]
    | cons p rest ih =>
      by_cases hk : p.1 = name
      · simp [Mem.mset, Mem.mget, hk]
      · simp [Mem.mset, Mem.mget, hk, ih]

/-- Claim C7 witness: with `x` bound, redeclaring `x` fails; with `x`
unbound, declaring binds it; assigning unbound `x` fails; assigning
bound `x` updates it. -/
theorem declaration_and_assignment_error_contract_witness :
    Statement.interpret 1 (.variableDeclaration "x" (.numeral 7))
        { mem := [("x", .num 0)], out := [] } =
      .err (.alreadyDeclared "x") { mem := [("x", .num 0)], out := [] } ∧
    Statement.interpret 1 (.variableDeclaration "x" (.numeral 7))
        { mem := [], out := [] } =
      .ok { mem := [("x", .num 7)], out := [] } ∧
    Statement.interpret 1 (.assignment "x" (.numeral 7)) { mem := [], out := [] } =
      .err (.unknownVariable "x") { mem := [], out := [] } ∧
    Statement.interpret 1 (.assignment "x" (.numeral 7))
        { mem := [("x", .num 0)], out := [] } =
      .ok { mem := [("x", .num 7)], out := [] } :=
  ⟨(declaration_and_assignment_error_contract 0 "x" (.numeral 7)
      { mem := [("x", .num 0)], out := [] } (.num 7)).1 rfl,
   (declaration_and_assignment_error_contract 0 "x" (.numeral 7)
      { mem := [], out := [] } (.num 7)).2.1 rfl rfl,
   (declaration_and_assignment_error_contract 0 "x" (.numeral 7)
      { mem := [], out := [] } (.num 7)).2.2.1 rfl,
   (declaration_and_assignment_error_contract 0 "x" (.numeral 7)
      { mem := [("x", .num 0)], out := [] } (.num 7)).2.2.2.1 rfl rfl⟩

/-- Claim C8: the claim states the root environment binds `ln` to a unary
natural-logarithm function.  The code binds `ln` to the NUMBER constant
`Math.LN10` (and `π` to the number `Math.PI`), so `Call(ln, [x])` throws
`Value is not a function` instead of returning a logarithm.  This theorem
evaluates the code at that input. -/
theorem ln_is_bound_to_a_constant_not_a_function :
    builtins.mget "ln" = some (.num mathLN10) ∧
    builtins.mget "π" = some (.num mathPI) ∧
    Expression.interpret (.call "ln" [.numeral 1]) builtins =
      .error (.notAFunction "ln") :=
  ⟨rfl, rfl, rfl⟩

/-- Claim C10: declaration and assignment are atomic on error: the
binding-existence check runs before the initializer/source is evaluated
(the check's error wins for EVERY expression, erroring ones included),
and when the expression's evaluation raises, that error propagates with
the state — memory and output — completely unchanged. -/
theorem declaration_assignment_atomic_on_error
    (fuel : Nat) (name : String) (e : Expression) (s : St) (er : Err) :
    (s.mem.mhas name = true →
      Statement.interpret (fuel + 1) (.variableDeclaration name e) s =
        .err (.alreadyDeclared name) s) ∧
    (s.mem.mhas name = false →
      Statement.interpret (fuel + 1) (.assignment name e) s =
        .err (.unknownVariable name) s) ∧
    (s.mem.mhas name = false → e.interpret s.mem = .error er →
      Statement.interpret (fuel + 1) (.variableDeclaration name e) s = .err er s) ∧
    (s.mem.mhas name = true → e.interpret s.mem = .error er →
      Statement.interpret (fuel + 1) (.assignment name e) s = .err er s) := by
  refine ⟨?_, ?_, ?_, ?_⟩ <;> intro h <;>
    first
    | (intro he; simp [Statement.interpret, h, he])
    | simp [Statement.interpret, h]

/-- Claim C10 witness: with `x` bound, the declaration `x := boom` fails
with the redeclaration error even though `boom` would raise; with `x`
unbound, the declaration's erroring initializer propagates with the state
untouched; with `x` bound, the assignment's erroring source propagates
with the state untouched. -/
theorem declaration_assignment_atomic_on_error_witness :
    Statement.interpret 1 (.variableDeclaration "x" (.identifier "boom"))
        { mem := [("x", .num 0)], out := [] } =
      .err (.alreadyDeclared "x") { mem := [("x", .num 0)], out := [] } ∧
    Statement.interpret 1 (.variableDeclaration "x" (.identifier "boom"))
        { mem := [], out := [] } =
      .err (.unknownVariable "boom") { mem := [], out := [] } ∧
    Statement.interpret 1 (.assignment "x" (.identifier "boom"))
        { mem := [("x", .num 0)], out := [] } =
      .err (.unknownVariable "boom") { mem := [("x", .num 0)], out := [] } :=
  ⟨(declaration_assignment_atomic_on_error 0 "x" (.identifier "boom")
      { mem := [("x", .num 0)], out := [] } (.unknownVariable "boom")).1 rfl,
   (declaration_assignment_atomic_on_error 0 "x" (.identifier "boom")
      { mem := [], out := [] } (.unknownVariable "boom")).2.2.1 rfl rfl,
   (declaration_assignment_atomic_on_error 0 "x" (.identifier "boom")
      { mem := [("x", .num 0)], out := [] } (.unknownVariable "boom")).2.2.2 rfl rfl⟩

end Bella

namespace BellaTs

/-- Claim C9: the claim states expression evaluation is pure, with no
observable output.  `Identifier.interpret` of `src/bella.ts` logs
`typeof value` to the console on every lookup — here, reading the
built-in `π` produces the console line `"number"`, a nonempty output. -/
theorem identifier_lookup_logs_console_output :
    identifierInterpret "π" builtins = (.ok (.num Bella.mathPI), ["number"]) ∧
    (identifierInterpret "π" builtins).2 ≠ [] := by
  refine ⟨rfl, ?_⟩
  simp [identifierInterpret, builtins, Mem.mget]

end BellaTs
